import Mathlib

/-!
Verification of the `slashinit` PID-1 boot supervisor (package `slashinit`,
file `bootc.go`, second compilation unit): the root-transition and recovery
orchestrator.  The Go functions are shallowly embedded as trace-producing
computations.  Each filesystem / collaborator primitive emits an `Op` event;
a `World` records, for every primitive, whether it succeeds (failure
injection) together with the process environment; a Go `panic` is an
`Option String` outcome that aborts the rest of the sequence.
-/

namespace Slashinit

/-- Result of `os.Stat`: the path exists, does not exist (`os.IsNotExist`),
or stat itself fails with some other error. -/
inductive StatRes where
  | found
  | notFound
  | statErr
deriving DecidableEq, Repr

/-- Result of the kexec collaborator (`goes.Main "kexec" ...`): on success the
process image is replaced and the call never returns; otherwise it returns an
error; it may also panic. -/
inductive KexecRes where
  | handoff
  | failed (m : String)
  | panicK (m : String)
deriving DecidableEq, Repr

/-- Result of one invocation of the interactive shell collaborator
(`goes.Main "cli"`): clean return (nil error), end-of-input (`io.EOF`), or
any other error. -/
inductive CliRes where
  | clean
  | eof
  | errOther (m : String)
deriving DecidableEq, Repr

/-- Observable events emitted by the orchestrator: one constructor per
distinct syscall / collaborator invocation appearing in the source. -/
inductive Op where
  | stat (p : String)
  | mkdir (p : String) (mode : Nat)
  | mountFs (dev dir fstype : String)
  | symlink (src dst : String)
  | logMsg
  | printMsg
  | openF (p : String)
  | createF (p : String)
  | copyF (src dst : String)
  | chmod (p : String) (mode : Nat)
  | mountCmd (root mp : String)
  | sourceCmd (s : String)
  | mountMove (src dst : String)
  | chdir (p : String)
  | unlink (p : String)
  | rmdir (p : String)
  | chroot (p : String)
  | setenv (k v : String)
  | execBin (p : String)
  | cliRun
  | fetchBatch (names : List String)
  | kexecCmd (kernel initramfs cmdline : String)
  | startCmd
deriving DecidableEq, Repr

/-- The failure-injection environment: stat results per path, success of
each mutating primitive, the process environment, and the results of the
out-of-scope collaborators (mount command, script interpreter, fetch batch,
kexec, interactive shell, board hook, daemon start). -/
structure World where
  stat : String → StatRes
  mkdirOk : String → Bool
  mountCmdOk : String → String → Bool
  sourceOk : String → Bool
  openOk : String → Bool
  createOk : String → Bool
  copyOk : String → String → Bool
  chmodOk : String → Bool
  symlinkOk : String → Bool
  mountFsOk : String → Bool
  moveOk : String → String → Bool
  chdirOk : String → Bool
  chrootOk : Bool
  setenvOk : String → Bool
  getenv : String → String
  execOk : Bool
  hookErr : Option String
  startErr : Option String
  newReqOk : String → Bool
  fetchRes : List String → Nat × Option String
  kexec : KexecRes
  cli : Nat → CliRes

/-- A sequential computation: the trace of events it emitted, and `some m`
when it panicked with message `m` (aborting everything after it). -/
abbrev Step := List Op × Option String

/-- Sequencing with panic-as-control-flow: if `a` panicked, `b` never runs. -/
def andThen (a b : Step) : Step :=
  match a.2 with
  | none => (a.1 ++ b.1, b.2)
  | some m => (a.1, some m)

/-- `if _, err := os.Stat(p); os.IsNotExist(err) { err := os.Mkdir(p, mode);
if err != nil { panic } }` — the create-if-absent idiom used by
`makeRootDirs`, `moveVirtualFileSystems`, `pivotRoot` and `makeTargetDirs`. -/
def mkdirEntry (w : World) (p : String) (mode : Nat) : Step :=
  match w.stat p with
  | StatRes.notFound =>
      if w.mkdirOk p then ([Op.stat p, Op.mkdir p mode], none)
      else ([Op.stat p, Op.mkdir p mode], some ("mkdir " ++ p))
  | _ => ([Op.stat p], none)

/-- The create-symlink-if-absent idiom (panic on symlink error) used by
`makeRootLinks` and `makeTargetLinks`. -/
def linkEntry (w : World) (src dst : String) : Step :=
  match w.stat dst with
  | StatRes.notFound =>
      if w.symlinkOk dst then ([Op.stat dst, Op.symlink src dst], none)
      else ([Op.stat dst, Op.symlink src dst], some ("ln " ++ dst))
  | _ => ([Op.stat dst], none)

/-- One entry of `makeRootFiles`: stat the prefixed destination; when it is
absent or the environment variable `goes` equals `overwrite`, open the
source, create the prefixed destination, copy, then chmod — where the chmod
is applied to the UNPREFIXED destination path `dst`, exactly as in the
source (`os.Chmod(cp.dst, 0755)`). Any step error panics. -/
def copyEntry (w : World) (mp src dst : String) : Step :=
  let d := mp ++ dst
  if w.stat d = StatRes.notFound ∨ w.getenv "goes" = "overwrite" then
    if w.openOk src = false then
      ([Op.stat d, Op.openF src], some ("open " ++ src))
    else if w.createOk d = false then
      ([Op.stat d, Op.openF src, Op.createF d], some ("create " ++ d))
    else if w.copyOk src d = false then
      ([Op.stat d, Op.openF src, Op.createF d, Op.copyF src d],
       some ("copy " ++ src))
    else if w.chmodOk dst = false then
      ([Op.stat d, Op.openF src, Op.createF d, Op.copyF src d,
        Op.chmod dst 0o755], some ("chmod " ++ d))
    else
      ([Op.stat d, Op.openF src, Op.createF d, Op.copyF src d,
        Op.chmod dst 0o755], none)
  else ([Op.stat d], none)

/-- `makeRootDirs(mountPoint)`: the four skeleton directories. -/
def makeRootDirs (w : World) (mp : String) : Step :=
  andThen (mkdirEntry w (mp ++ "/bin") 0o775)
    (andThen (mkdirEntry w (mp ++ "/sbin") 0o755)
      (andThen (mkdirEntry w (mp ++ "/usr") 0o755)
        (mkdirEntry w (mp ++ "/usr/bin") 0o755)))

/-- `makeRootFiles(mountPoint)`: the two skeleton file copies. -/
def makeRootFiles (w : World) (mp : String) : Step :=
  andThen (copyEntry w mp "/init" "/usr/bin/goes")
    (copyEntry w mp "/usr/bin/gdbserver" "/usr/bin/gdbserver")

/-- `makeRootLinks(mountPoint)`: the single skeleton symlink. -/
def makeRootLinks (w : World) (mp : String) : Step :=
  linkEntry w "../usr/bin/goes" (mp ++ "/sbin/init")

/-- The skeleton-population step of the pivot: `makeRootDirs`,
`makeRootFiles`, `makeRootLinks` in source order. -/
def skeletonStep (w : World) (mp : String) : Step :=
  andThen (makeRootDirs w mp)
    (andThen (makeRootFiles w mp) (makeRootLinks w mp))

/-- One entry of `moveVirtualFileSystems`: create the destination directory
under the mount point if absent (panic on mkdir error), then move-mount the
live mount onto it (panic on error). -/
def moveEntry (w : World) (mp src dst : String) (mode : Nat) : Step :=
  andThen (mkdirEntry w (mp ++ dst) mode)
    (if w.moveOk src (mp ++ dst) then ([Op.mountMove src (mp ++ dst)], none)
     else ([Op.mountMove src (mp ++ dst)], some ("move " ++ src)))

/-- `moveVirtualFileSystems(mountPoint)`: relocate the four live virtual
filesystems into the new root (note the `/sys` → `/sysfs` destination). -/
def moveVirtualFileSystems (w : World) (mp : String) : Step :=
  andThen (moveEntry w mp "/run" "/run" 0o755)
    (andThen (moveEntry w mp "/sys" "/sysfs" 0o555)
      (andThen (moveEntry w mp "/proc" "/proc" 0o555)
        (moveEntry w mp "/dev" "/dev" 0o755)))

/-- `unlinkRootFiles()`: unlink the old-root skeleton files; `syscall.Unlink`
errors are ignored, so this never panics. -/
def unlinkRootFiles : Step :=
  ([Op.unlink "/usr/bin/gdbserver", Op.unlink "/init", Op.unlink "/bin/goes"],
   none)

/-- `rmdirRootDirs()`: remove the old-root skeleton directories;
`syscall.Rmdir` errors are ignored, so this never panics. -/
def rmdirRootDirs : Step :=
  ([Op.rmdir "/run", Op.rmdir "/sys", Op.rmdir "/proc", Op.rmdir "/dev",
    Op.rmdir "/usr/bin", Op.rmdir "/usr", Op.rmdir "/bin"], none)

/-- Steps 1–3 of `pivotRoot`: ensure the staging directory, mount the root
via the mount collaborator, and run the optional boot script. -/
def mountAndScript (w : World) (mp root script : String) : Step :=
  andThen (mkdirEntry w mp 0o755)
    (andThen
      (if w.mountCmdOk root mp then ([Op.mountCmd root mp], none)
       else ([Op.mountCmd root mp], some ("mount " ++ root)))
      (if script.length > 0 then
        (if w.sourceOk script then ([Op.sourceCmd script], none)
         else ([Op.sourceCmd script], some ("source " ++ script)))
       else ([], none)))

/-- Steps 1–6 of `pivotRoot`: everything strictly before the old-root
cleanup — staging mount, boot script, skeleton population, virtual
filesystem relocation, and the chdir into the staging path. -/
def preStep (w : World) (mp root script : String) : Step :=
  andThen (mountAndScript w mp root script)
    (andThen (makeRootDirs w mp)
      (andThen (makeRootFiles w mp)
        (andThen (makeRootLinks w mp)
          (andThen (moveVirtualFileSystems w mp)
            (if w.chdirOk mp then ([Op.chdir mp], none)
             else ([Op.chdir mp], some ("chdir " ++ mp)))))))

/-- Step 7 of `pivotRoot`: remove the superseded skeleton from the old root
(files first, then directories); never panics. -/
def cleanupStep : Step := andThen unlinkRootFiles rmdirRootDirs

/-- Steps 8–9 of `pivotRoot`: bind-move the staging path onto `/`, then
chroot into it; each panics on failure. -/
def switchStep (w : World) (mp : String) : Step :=
  andThen
    (if w.moveOk mp "/" then ([Op.mountMove mp "/"], none)
     else ([Op.mountMove mp "/"], some ("mount " ++ mp ++ " /")))
    (if w.chrootOk then ([Op.chroot "."], none)
     else ([Op.chroot "."], some "chroot ."))

/-- `pivotRoot(mountPoint, root, script)`: the full pivot sequence. -/
def pivotRoot (w : World) (mp root script : String) : Step :=
  andThen (preStep w mp root script)
    (andThen cleanupStep (switchStep w mp))

/-- `makeTargetDirs()`: the post-switch top-level directories. -/
def makeTargetDirs (w : World) : Step :=
  andThen (mkdirEntry w "/root" 0o700)
    (andThen (mkdirEntry w "/tmp" 0o1777)
      (mkdirEntry w "/var" 0o755))

/-- `makeTargetLinks()`: the `/var/run` → `../run` compatibility symlink. -/
def makeTargetLinks (w : World) : Step :=
  linkEntry w "../run" "/var/run"

/-- `mountTargetVirtualFilesystems()`: mount a tmpfs at `/tmp`, panicking on
failure. -/
def mountTargetVirtualFilesystems (w : World) : Step :=
  if w.mountFsOk "/tmp" then ([Op.mountFs "tmpfs" "/tmp" "tmpfs"], none)
  else ([Op.mountFs "tmpfs" "/tmp" "tmpfs"], some "mount tmpfs /tmp")

/-- Result of `runSbinInit` / of the whole `Main` body: the process image was
replaced by `exec`, the function returned normally, or it panicked. -/
inductive FinalRes where
  | execed
  | returned
  | panicked (m : String)
deriving DecidableEq, Repr

/-- The environment-configuration prefix of `runSbinInit`: the four `Setenv`
calls, the chdir to `/root`, and the `TERM` default; each panics on error. -/
def envStep (w : World) : Step :=
  andThen
    (if w.setenvOk "PATH" then ([Op.setenv "PATH" "/bin:/usr/bin"], none)
     else ([Op.setenv "PATH" "/bin:/usr/bin"], some "Setenv PATH"))
    (andThen
      (if w.setenvOk "SHELL" then ([Op.setenv "SHELL" "/bin/goes"], none)
       else ([Op.setenv "SHELL" "/bin/goes"], some "Setenv SHELL"))
      (andThen
        (if w.chdirOk "/root" then ([Op.chdir "/root"], none)
         else ([Op.chdir "/root"], some "chdir /root"))
        (andThen
          (if w.setenvOk "HOME" then ([Op.setenv "HOME" "/root"], none)
           else ([Op.setenv "HOME" "/root"], some "Setenv HOME"))
          (if (w.getenv "TERM").length = 0 then
            (if w.setenvOk "TERM" then ([Op.setenv "TERM" "linux"], none)
             else ([Op.setenv "TERM" "linux"], some "Setenv TERM"))
           else ([], none)))))

/-- `runSbinInit()`: after the environment prefix, stat `/sbin/init`; absent
⇒ return normally; stat error ⇒ panic; present ⇒ exec (replacing the process
image on success, panicking on exec failure). -/
def runSbinInit (w : World) : List Op × FinalRes :=
  match envStep w with
  | (t, some m) => (t, FinalRes.panicked m)
  | (t, none) =>
    match w.stat "/sbin/init" with
    | StatRes.notFound => (t ++ [Op.stat "/sbin/init"], FinalRes.returned)
    | StatRes.statErr =>
        (t ++ [Op.stat "/sbin/init"], FinalRes.panicked "stat /sbin/init")
    | StatRes.found =>
        if w.execOk then
          (t ++ [Op.stat "/sbin/init", Op.execBin "/sbin/init"],
           FinalRes.execed)
        else
          (t ++ [Op.stat "/sbin/init", Op.execBin "/sbin/init"],
           FinalRes.panicked "exec /sbin/init")

/-- One mount entry of the package `init` function (the Virtual-FS
Bootstrapper): create the mountpoint if absent — a mkdir failure is logged
and the entry is skipped (`continue`) — then mount, logging (not
propagating) any mount failure. Never panics. -/
def bootMntEntry (w : World) (dir dev fstype : String) (mode : Nat) :
    List Op :=
  let mountPart :=
    if w.mountFsOk dir then [Op.mountFs dev dir fstype]
    else [Op.mountFs dev dir fstype, Op.logMsg]
  match w.stat dir with
  | StatRes.notFound =>
      if w.mkdirOk dir then [Op.stat dir, Op.mkdir dir mode] ++ mountPart
      else [Op.stat dir, Op.mkdir dir mode, Op.logMsg]
  | _ => [Op.stat dir] ++ mountPart

/-- One standard-stream symlink entry of the package `init` function:
create if absent, logging (not propagating) failure. Never panics. -/
def bootLnEntry (w : World) (src dst : String) : List Op :=
  match w.stat dst with
  | StatRes.notFound =>
      if w.symlinkOk dst then [Op.stat dst, Op.symlink src dst]
      else [Op.stat dst, Op.symlink src dst, Op.logMsg]
  | _ => [Op.stat dst]

/-- The body of the package `init` function once both guards passed: the
five pseudo-filesystem mounts followed by the three standard-stream
symlinks, every entry processed unconditionally. -/
def bootstrapBody (w : World) : List Op :=
  bootMntEntry w "/dev" "devtmpfs" "devtmpfs" 0o755 ++
  bootMntEntry w "/dev/pts" "devpts" "devpts" 0o755 ++
  bootMntEntry w "/proc" "proc" "proc" 0o555 ++
  bootMntEntry w "/sys" "sysfs" "sysfs" 0o555 ++
  bootMntEntry w "/run" "tmpfs" "tmpfs" 0o755 ++
  bootLnEntry w "../proc/self/fd/0" "/dev/stdin" ++
  bootLnEntry w "../proc/self/fd/1" "/dev/stdout" ++
  bootLnEntry w "../proc/self/fd/2" "/dev/stderr"

/-- The package `init` function: returns immediately (empty trace) unless
the process id is 1 and the invocation name (`os.Args[0]`) is `/init`. -/
def bootstrap (pid : Nat) (arg0 : String) (w : World) : List Op :=
  if pid ≠ 1 then []
  else if arg0 ≠ "/init" then []
  else bootstrapBody w

/-- Go `strings.Split` with a one-character separator, on the character
list: every occurrence of the separator starts a new field, and the empty
list yields one empty field, as in Go. -/
def splitOnChar (sep : Char) : List Char → List (List Char)
  | [] => [[]]
  | c :: rest =>
    let r := splitOnChar sep rest
    if c = sep then [] :: r
    else
      match r with
      | [] => [[c]]
      | h :: t => (c :: h) :: t

/-- Go `strings.Split(s, sep)` for a one-character separator. -/
def goSplit (s : String) (sep : Char) : List String :=
  (splitOnChar sep s.data).map (fun cs => String.mk cs)

/-- Go `filepath.SplitList` on the Linux target: `strings.Split(path, ":")`
(the OS path list separator is the colon), except that the empty string
yields the empty list. -/
def splitList (s : String) : List String :=
  if s = "" then [] else goSplit s ':'

/-- The `root`/`script` extraction in `Main`: first and second elements of
`filepath.SplitList(os.Getenv("goesroot"))`, each kept only if non-empty. -/
def parseGoesRoot (s : String) : String × String :=
  let l := splitList s
  let root := match l.head? with
    | some r => if r.length > 0 then r else ""
    | none => ""
  let script := match l.get? 1 with
    | some sc => if sc.length > 0 then sc else ""
    | none => ""
  (root, script)

/-- The Finalizer sequence after (or instead of) the pivot:
`makeTargetDirs`, `makeTargetLinks`, `mountTargetVirtualFilesystems`. -/
def finalizeStep (w : World) : Step :=
  andThen (makeTargetDirs w)
    (andThen (makeTargetLinks w) (mountTargetVirtualFilesystems w))

/-- The post-hook part of the `Main` body: pivot when a root is configured,
finalize the target environment, run `/sbin/init`, and finally start the
daemons via the start collaborator. -/
def bodyCore (w : World) (root script : String) : List Op × FinalRes :=
  match andThen
      (if root.length > 0 then pivotRoot w "/newroot" root script
       else ([], none))
      (finalizeStep w) with
  | (t, some m) => (t, FinalRes.panicked m)
  | (t, none) =>
    match runSbinInit w with
    | (t2, FinalRes.execed) => (t ++ t2, FinalRes.execed)
    | (t2, FinalRes.panicked m) => (t ++ t2, FinalRes.panicked m)
    | (t2, FinalRes.returned) =>
        (t ++ t2 ++ [Op.startCmd], FinalRes.returned)

/-- The body of `Main` (inside the deferred recovery boundary): run the
board hook (an error panics), parse `goesroot`, then `bodyCore`. -/
def mainBody (w : World) : List Op × FinalRes :=
  match w.hookErr with
  | some e => ([], FinalRes.panicked ("hook " ++ e))
  | none =>
    let rs := parseGoesRoot (w.getenv "goesroot")
    bodyCore w rs.1 rs.2

/-- Result of `installer`: kexec hand-off (never returns), an error
returned to the caller, or a panic out of the kexec collaborator. -/
inductive InstRes where
  | handoff
  | errored (m : String)
  | panicked (m : String)
deriving DecidableEq, Repr

/-- Request construction of `installer`: the mandatory kernel URL and the
optional initramfs and FDT URLs, each turned into a request with fixed
destination filename; any `grab.NewRequest` failure (or a missing kernel
parameter) returns the error immediately. The value is the list of
destination filenames of the built requests. -/
def instReqs (w : World) (params : List String) :
    Except String (List String) :=
  match params.head? with
  | none => Except.error "KERNEL missing"
  | some k =>
    if k.length = 0 then Except.error "KERNEL missing"
    else if w.newReqOk k = false then Except.error ("request " ++ k)
    else
      let step2 : Except String (List String) :=
        match params.get? 1 with
        | some i =>
          if i.length > 0 then
            if w.newReqOk i then Except.ok ["kernel", "initramfs"]
            else Except.error ("request " ++ i)
          else Except.ok ["kernel"]
        | none => Except.ok ["kernel"]
      match step2 with
      | Except.error m => Except.error m
      | Except.ok names =>
        match params.get? 2 with
        | some f =>
          if f.length > 0 then
            if w.newReqOk f then Except.ok (names ++ ["fdt"])
            else Except.error ("request " ++ f)
          else Except.ok names
        | none => Except.ok names

/-- `installer(params)`: build the requests, run the batch fetch (an error
from the fetch call itself is returned), print a success message exactly
when every requested fetch succeeded, then call the kexec collaborator —
unconditionally — returning its result. -/
def installer (w : World) (params : List String) : List Op × InstRes :=
  match instReqs w params with
  | Except.error m => ([], InstRes.errored m)
  | Except.ok names =>
    let fr := w.fetchRes names
    match fr.2 with
    | some m => ([Op.fetchBatch names], InstRes.errored m)
    | none =>
      let pr := if fr.1 = names.length then [Op.printMsg] else []
      let t := [Op.fetchBatch names] ++ pr ++
        [Op.kexecCmd "kernel" "initramfs" "console=ttyS0,115200"]
      match w.kexec with
      | KexecRes.handoff => (t, InstRes.handoff)
      | KexecRes.failed m => (t, InstRes.errored m)
      | KexecRes.panicK m => (t, InstRes.panicked m)

/-- Where control finally rests after `Main`: the process image replaced by
`/sbin/init`, replaced by the kexec hand-off, or the perpetual emergency
shell loop. -/
inductive MainOutcome where
  | sbinHandoff
  | kexecHandoff
  | shell
deriving DecidableEq, Repr

/-- `Main` with its two-level deferred recovery boundary: if the body
exec'd `/sbin/init`, the deferred functions never run; otherwise (normal
return or recovered panic) the outer boundary runs `installer` when
`goesinstaller` is set — a hand-off ends the process, any installer error
or panic is absorbed — and the inner boundary then enters the emergency
shell, which never returns. -/
def mainOutcome (w : World) : MainOutcome :=
  match (mainBody w).2 with
  | FinalRes.execed => MainOutcome.sbinHandoff
  | _ =>
    let gi := w.getenv "goesinstaller"
    if gi.length > 0 then
      match (installer w (goSplit gi ',')).2 with
      | InstRes.handoff => MainOutcome.kexecHandoff
      | _ => MainOutcome.shell
    else MainOutcome.shell

/-- One iteration of `emergencyShell`: print the banner, invoke the shell
collaborator, and print any error other than `io.EOF`. The loop body
contains no return or break, so the iteration always continues. -/
def shellIter (w : World) (n : Nat) : List Op :=
  [Op.printMsg, Op.cliRun] ++
  (match w.cli n with
   | CliRes.errOther _ => [Op.printMsg]
   | _ => [])

/-- The trace of the first `n` iterations of the `emergencyShell` loop. -/
def shellRun (w : World) : Nat → List Op
  | 0 => []
  | n + 1 => shellRun w n ++ shellIter w n

/-- Whether an event is an invocation of the interactive shell. -/
def isCli : Op → Bool
  | Op.cliRun => true
  | _ => false

/-- Whether an event belongs to the old-root cleanup (step 7 of the pivot:
`unlinkRootFiles` / `rmdirRootDirs`). -/
def isCleanup : Op → Bool
  | Op.unlink _ => true
  | Op.rmdir _ => true
  | _ => false

/-- Whether an event is a root-context change (`syscall.Chroot`). -/
def isChroot : Op → Bool
  | Op.chroot _ => true
  | _ => false

/-- Whether an event mutates filesystem state (as opposed to a read such as
`stat`/`open`, a log line, or a pure collaborator call). -/
def isWrite : Op → Bool
  | Op.mkdir _ _ => true
  | Op.createF _ => true
  | Op.copyF _ _ => true
  | Op.chmod _ _ => true
  | Op.symlink _ _ => true
  | Op.unlink _ => true
  | Op.rmdir _ => true
  | _ => false

/-- A fully cooperative world: every path exists, every primitive and
collaborator succeeds, the environment is empty, the shell collaborator
always reports end-of-input. -/
def wAll : World where
  stat := fun _ => StatRes.found
  mkdirOk := fun _ => true
  mountCmdOk := fun _ _ => true
  sourceOk := fun _ => true
  openOk := fun _ => true
  createOk := fun _ => true
  copyOk := fun _ _ => true
  chmodOk := fun _ => true
  symlinkOk := fun _ => true
  mountFsOk := fun _ => true
  moveOk := fun _ _ => true
  chdirOk := fun _ => true
  chrootOk := true
  setenvOk := fun _ => true
  getenv := fun _ => ""
  execOk := true
  hookErr := none
  startErr := none
  newReqOk := fun _ => true
  fetchRes := fun names => (names.length, none)
  kexec := KexecRes.handoff
  cli := fun _ => CliRes.eof

/-- `wAll` with the environment variable `goes` set to `overwrite`. -/
def wOver : World :=
  { wAll with getenv := fun k => if k = "goes" then "overwrite" else "" }

/-- `wAll` with a batch fetch that reports only one success yet no error. -/
def wFetch1 : World :=
  { wAll with fetchRes := fun _ => (1, none) }

/-- `wAll` with a failing board hook and no recovery descriptor. -/
def wHook : World :=
  { wAll with hookErr := some "boom" }

/-- `wAll` except that the bind-move of `/newroot` onto `/` fails. -/
def wNoMove : World :=
  { wAll with moveOk := fun s d => !(s == "/newroot" && d == "/") }

/-- `wAll` with a shell collaborator that always returns a non-EOF error. -/
def wShellErr : World :=
  { wAll with cli := fun _ => CliRes.errOther "x" }

/-- `wAll` except that `/sbin/init` does not exist. -/
def wNoInit : World :=
  { wAll with stat := fun p => if p = "/sbin/init" then StatRes.notFound
                               else StatRes.found }

/-- `wAll` with `goesroot` set to the colon-separated root/script pair. -/
def wC3 : World :=
  { wAll with getenv := fun k =>
      if k = "goesroot" then "/dev/sda1:/etc/boot.conf" else "" }

/-- `wAll` except that the supervisor-binary copy is absent from the
staging root. -/
def wAbsent : World :=
  { wAll with stat := fun p =>
      if p = "/newroot/usr/bin/goes" then StatRes.notFound
      else StatRes.found }

/-- Events that may legally appear strictly before the old-root cleanup:
anything that is neither a cleanup event nor a root-context change. -/
def preSafe (op : Op) : Bool := !isCleanup op && !isChroot op

theorem andThen_of_none {a b : Step} (h : a.2 = none) :
    andThen a b = (a.1 ++ b.1, b.2) := by
  unfold andThen; rw [h]

theorem andThen_of_some {a b : Step} {m : String} (h : a.2 = some m) :
    andThen a b = (a.1, some m) := by
  unfold andThen; rw [h]

theorem mem_andThen {op : Op} {a b : Step}
    (h : op ∈ (andThen a b).1) : op ∈ a.1 ∨ (a.2 = none ∧ op ∈ b.1) := by
  unfold andThen at h
  cases ha : a.2 with
  | none => rw [ha] at h; rcases List.mem_append.mp h with h' | h'
            · exact Or.inl h'
            · exact Or.inr ⟨rfl, h'⟩
  | some m => rw [ha] at h; exact Or.inl h

theorem andThen_none {a b : Step} (h : (andThen a b).2 = none) :
    a.2 = none ∧ b.2 = none := by
  unfold andThen at h
  cases ha : a.2 with
  | none => rw [ha] at h; exact ⟨rfl, h⟩
  | some m => rw [ha] at h; simp at h

theorem mkdirEntry_shape {w : World} {p : String} {md : Nat} {op : Op}
    (h : op ∈ (mkdirEntry w p md).1) :
    op = Op.stat p ∨ op = Op.mkdir p md := by
  cases hs : w.stat p <;>
    by_cases hk : w.mkdirOk p <;>
    simp [mkdirEntry, hs, hk] at h <;>
    tauto

theorem linkEntry_shape {w : World} {src dst : String} {op : Op}
    (h : op ∈ (linkEntry w src dst).1) :
    op = Op.stat dst ∨ op = Op.symlink src dst := by
  cases hs : w.stat dst <;>
    by_cases hk : w.symlinkOk dst <;>
    simp [linkEntry, hs, hk] at h <;>
    tauto

theorem copyEntry_shape {w : World} {mp src dst : String} {op : Op}
    (h : op ∈ (copyEntry w mp src dst).1) :
    op = Op.stat (mp ++ dst) ∨ op = Op.openF src ∨
    op = Op.createF (mp ++ dst) ∨ op = Op.copyF src (mp ++ dst) ∨
    op = Op.chmod dst 0o755 := by
  unfold copyEntry at h
  by_cases h1 : (w.stat (mp ++ dst) = StatRes.notFound ∨
      w.getenv "goes" = "overwrite") <;>
  by_cases h2 : w.openOk src = false <;>
  by_cases h3 : w.createOk (mp ++ dst) = false <;>
  by_cases h4 : w.copyOk src (mp ++ dst) = false <;>
  by_cases h5 : w.chmodOk dst = false <;>
  simp [h1, h2, h3, h4, h5] at h <;>
  tauto

theorem preSafe_andThen {a b : Step}
    (ha : ∀ op ∈ a.1, preSafe op = true)
    (hb : ∀ op ∈ b.1, preSafe op = true) :
    ∀ op ∈ (andThen a b).1, preSafe op = true := by
  intro op h
  rcases mem_andThen h with h' | ⟨_, h'⟩
  · exact ha op h'
  · exact hb op h'

theorem mkdirEntry_preSafe {w : World} {p : String} {md : Nat} :
    ∀ op ∈ (mkdirEntry w p md).1, preSafe op = true := by
  intro op h
  rcases mkdirEntry_shape h with h' | h' <;> subst h' <;> rfl

theorem linkEntry_preSafe {w : World} {src dst : String} :
    ∀ op ∈ (linkEntry w src dst).1, preSafe op = true := by
  intro op h
  rcases linkEntry_shape h with h' | h' <;> subst h' <;> rfl

theorem copyEntry_preSafe {w : World} {mp src dst : String} :
    ∀ op ∈ (copyEntry w mp src dst).1, preSafe op = true := by
  intro op h
  rcases copyEntry_shape h with h' | h' | h' | h' | h' <;> subst h' <;> rfl

theorem ifStep_preSafe {c : Prop} [Decidable c] {t e : List Op}
    {mt me : Option String}
    (ht : ∀ op ∈ t, preSafe op = true) (he : ∀ op ∈ e, preSafe op = true) :
    ∀ op ∈ (if c then (t, mt) else (e, me) : Step).1, preSafe op = true := by
  intro op h
  by_cases hc : c
  · rw [if_pos hc] at h; exact ht op h
  · rw [if_neg hc] at h; exact he op h

theorem singleton_preSafe {o : Op} (ho : preSafe o = true) :
    ∀ op ∈ [o], preSafe op = true := by
  intro op h
  simp at h; subst h; exact ho

theorem makeRootDirs_preSafe {w : World} {mp : String} :
    ∀ op ∈ (makeRootDirs w mp).1, preSafe op = true := by
  unfold makeRootDirs
  exact preSafe_andThen mkdirEntry_preSafe
    (preSafe_andThen mkdirEntry_preSafe
      (preSafe_andThen mkdirEntry_preSafe mkdirEntry_preSafe))

theorem makeRootFiles_preSafe {w : World} {mp : String} :
    ∀ op ∈ (makeRootFiles w mp).1, preSafe op = true := by
  unfold makeRootFiles
  exact preSafe_andThen copyEntry_preSafe copyEntry_preSafe

theorem makeRootLinks_preSafe {w : World} {mp : String} :
    ∀ op ∈ (makeRootLinks w mp).1, preSafe op = true :=
  linkEntry_preSafe

theorem moveEntry_preSafe {w : World} {mp src dst : String} {md : Nat} :
    ∀ op ∈ (moveEntry w mp src dst md).1, preSafe op = true := by
  unfold moveEntry
  exact preSafe_andThen mkdirEntry_preSafe
    (ifStep_preSafe (singleton_preSafe rfl) (singleton_preSafe rfl))

theorem moveVirtualFileSystems_preSafe {w : World} {mp : String} :
    ∀ op ∈ (moveVirtualFileSystems w mp).1, preSafe op = true := by
  unfold moveVirtualFileSystems
  exact preSafe_andThen moveEntry_preSafe
    (preSafe_andThen moveEntry_preSafe
      (preSafe_andThen moveEntry_preSafe moveEntry_preSafe))

theorem mountAndScript_preSafe {w : World} {mp root script : String} :
    ∀ op ∈ (mountAndScript w mp root script).1, preSafe op = true := by
  unfold mountAndScript
  refine preSafe_andThen mkdirEntry_preSafe
    (preSafe_andThen
      (ifStep_preSafe (singleton_preSafe rfl) (singleton_preSafe rfl)) ?_)
  by_cases hs : script.length > 0
  · rw [if_pos hs]
    exact ifStep_preSafe (singleton_preSafe rfl) (singleton_preSafe rfl)
  · rw [if_neg hs]
    intro op h; simp at h

theorem preStep_preSafe {w : World} {mp root script : String} :
    ∀ op ∈ (preStep w mp root script).1, preSafe op = true := by
  unfold preStep
  exact preSafe_andThen mountAndScript_preSafe
    (preSafe_andThen makeRootDirs_preSafe
      (preSafe_andThen makeRootFiles_preSafe
        (preSafe_andThen makeRootLinks_preSafe
          (preSafe_andThen moveVirtualFileSystems_preSafe
            (ifStep_preSafe (singleton_preSafe rfl)
              (singleton_preSafe rfl))))))

theorem preSafe_not_cleanup {op : Op} (h : preSafe op = true) :
    isCleanup op = false := by
  unfold preSafe at h
  rcases Bool.and_eq_true_iff.mp h with ⟨h1, _⟩
  simpa using h1

theorem preSafe_not_chroot {op : Op} (h : preSafe op = true) :
    isChroot op = false := by
  unfold preSafe at h
  rcases Bool.and_eq_true_iff.mp h with ⟨_, h2⟩
  simpa using h2

theorem statMem_bootMntEntry {w : World} {dir dev fs : String} {md : Nat} :
    Op.stat dir ∈ bootMntEntry w dir dev fs md := by
  unfold bootMntEntry
  cases hs : w.stat dir <;> by_cases hk : w.mkdirOk dir <;>
    by_cases hm : w.mountFsOk dir <;> simp [hs, hk, hm]

theorem statMem_bootLnEntry {w : World} {src dst : String} :
    Op.stat dst ∈ bootLnEntry w src dst := by
  unfold bootLnEntry
  cases hs : w.stat dst <;> by_cases hk : w.symlinkOk dst <;>
    simp [hs, hk]

/-- C7: the Emergency Shell Supervisor never returns: after any number `n`
of iterations the shell collaborator has been invoked exactly `n` times
(the loop body has no exit), an iteration whose shell result is an error
other than end-of-input prints it and continues, and an end-of-input
iteration simply continues. -/
theorem emergencyShell_loops_forever (w : World) (n : Nat) :
    ((shellRun w n).filter isCli).length = n
    ∧ (∀ m, w.cli n = CliRes.errOther m →
        shellIter w n = [Op.printMsg, Op.cliRun, Op.printMsg])
    ∧ (w.cli n = CliRes.eof → shellIter w n = [Op.printMsg, Op.cliRun]) := by
  refine ⟨?_, ?_, ?_⟩
  · induction n with
    | zero => rfl
    | succ k ih =>
        have hone : ((shellIter w k).filter isCli).length = 1 := by
          unfold shellIter; cases w.cli k <;> rfl
        simp [shellRun, List.filter_append, ih, hone]
  · intro m hm; simp [shellIter, hm]
  · intro hm; simp [shellIter, hm]

/-- Witness for C7 at a shell collaborator that always fails with a
non-EOF error: two iterations invoke the shell twice, and the failing
iteration prints the error and continues. -/
theorem emergencyShell_loops_forever_witness :
    ((shellRun wShellErr 2).filter isCli).length = 2
    ∧ shellIter wShellErr 2 = [Op.printMsg, Op.cliRun, Op.printMsg] :=
  ⟨(emergencyShell_loops_forever wShellErr 2).1,
   (emergencyShell_loops_forever wShellErr 2).2.1 "x" rfl⟩

/-- C8: in the Finalizer (`runSbinInit`), provided the environment
configuration prefix succeeded, a missing `/sbin/init` makes the function
return normally (control proceeds to the daemon-start collaborator), while
an existing `/sbin/init` whose exec fails makes it panic (fatal, unwound to
the Recovery boundary). -/
theorem runSbinInit_absent_or_fatal (w : World)
    (henv : (envStep w).2 = none) :
    (w.stat "/sbin/init" = StatRes.notFound →
      (runSbinInit w).2 = FinalRes.returned)
    ∧ (w.stat "/sbin/init" = StatRes.found → w.execOk = false →
      (runSbinInit w).2 = FinalRes.panicked "exec /sbin/init") := by
  rcases he : envStep w with ⟨t, o⟩
  rw [he] at henv
  simp only at henv
  subst henv
  constructor
  · intro hs
    unfold runSbinInit
    rw [he, hs]
  · intro hs hx
    unfold runSbinInit
    rw [he, hs]
    simp [hx]

/-- Witness for C8: in the all-cooperative world without `/sbin/init`, the
Finalizer returns normally. -/
theorem runSbinInit_absent_or_fatal_witness :
    (runSbinInit wNoInit).2 = FinalRes.returned :=
  (runSbinInit_absent_or_fatal wNoInit rfl).1 rfl

/-- C9: the Virtual-FS Bootstrapper (package `init`) does nothing unless
the process id is 1 and the invocation name is `/init`; when it runs, it is
the full unconditional sequence of the five mounts and three symlinks (its
type has no panic outcome, so no failure halts the process), it reaches the
last entries whatever failures occur, a failed mountpoint mkdir is logged
and the entry skipped, a failed mount is logged, and a failed symlink
creation is logged. -/
theorem bootstrap_guarded_best_effort (pid : Nat) (arg0 : String)
    (w : World) :
    ((pid ≠ 1 ∨ arg0 ≠ "/init") → bootstrap pid arg0 w = [])
    ∧ bootstrap 1 "/init" w = bootstrapBody w
    ∧ Op.stat "/run" ∈ bootstrapBody w
    ∧ Op.stat "/dev/stderr" ∈ bootstrapBody w
    ∧ (∀ dir dev fs md, w.stat dir = StatRes.notFound →
        w.mkdirOk dir = false →
        bootMntEntry w dir dev fs md =
          [Op.stat dir, Op.mkdir dir md, Op.logMsg])
    ∧ (∀ dir dev fs md, w.mountFsOk dir = false →
        Op.logMsg ∈ bootMntEntry w dir dev fs md)
    ∧ (∀ src dst, w.stat dst = StatRes.notFound →
        w.symlinkOk dst = false →
        bootLnEntry w src dst =
          [Op.stat dst, Op.symlink src dst, Op.logMsg]) := by
  refine ⟨?_, rfl, ?_, ?_, ?_, ?_, ?_⟩
  · intro h
    unfold bootstrap
    by_cases hp : pid ≠ 1
    · rw [if_pos hp]
    · rw [if_neg hp]
      rcases h with h | h
      · exact absurd h hp
      · rw [if_pos h]
  · simp [bootstrapBody, List.mem_append, statMem_bootMntEntry,
      statMem_bootLnEntry]
  · simp [bootstrapBody, List.mem_append, statMem_bootMntEntry,
      statMem_bootLnEntry]
  · intro dir dev fs md hs hk
    unfold bootMntEntry
    rw [hs]
    simp [hk]
  · intro dir dev fs md hm
    unfold bootMntEntry
    cases hs : w.stat dir <;> by_cases hk : w.mkdirOk dir <;>
      simp [hs, hk, hm]
  · intro src dst hs hk
    unfold bootLnEntry
    rw [hs]
    simp [hk]

/-- Witness for C9: with process id 2 the bootstrapper does nothing. -/
theorem bootstrap_guarded_best_effort_witness :
    bootstrap 2 "/init" wAll = [] :=
  (bootstrap_guarded_best_effort 2 "/init" wAll).1 (Or.inl (by decide))

/-- C10: in `makeRootFiles`, when the supervisor binary is copied into the
staging root, the copy creates the prefixed destination
`/newroot/usr/bin/goes`, but the subsequent chmod to mode 0755 targets the
UNPREFIXED path `/usr/bin/goes` (the old ramdisk root); no chmod of the
prefixed destination ever appears, so the new copy keeps its creation
mode. -/
theorem makeRootFiles_chmod_unprefixed_path (w : World)
    (hst : w.stat "/newroot/usr/bin/goes" = StatRes.notFound)
    (ho : w.openOk "/init" = true)
    (hc : w.createOk "/newroot/usr/bin/goes" = true)
    (hy : w.copyOk "/init" "/newroot/usr/bin/goes" = true)
    (hm : w.chmodOk "/usr/bin/goes" = true) :
    Op.createF "/newroot/usr/bin/goes" ∈ (makeRootFiles w "/newroot").1
    ∧ Op.chmod "/usr/bin/goes" 0o755 ∈ (makeRootFiles w "/newroot").1
    ∧ Op.chmod "/newroot/usr/bin/goes" 0o755
        ∉ (makeRootFiles w "/newroot").1 := by
  have hfst : copyEntry w "/newroot" "/init" "/usr/bin/goes" =
      ([Op.stat "/newroot/usr/bin/goes", Op.openF "/init",
        Op.createF "/newroot/usr/bin/goes",
        Op.copyF "/init" "/newroot/usr/bin/goes",
        Op.chmod "/usr/bin/goes" 0o755], none) := by
    unfold copyEntry
    simp [hst, ho, hc, hy, hm]
  refine ⟨?_, ?_, ?_⟩
  · unfold makeRootFiles
    rw [andThen_of_none (by rw [hfst])]
    simp [hfst]
  · unfold makeRootFiles
    rw [andThen_of_none (by rw [hfst])]
    simp [hfst]
  · intro hmem
    unfold makeRootFiles at hmem
    rcases mem_andThen hmem with h' | ⟨_, h'⟩
    · rw [hfst] at h'
      simp at h'
    · rcases copyEntry_shape h' with h'' | h'' | h'' | h'' | h'' <;>
        simp at h''

/-- Witness for C10 in the world where only the staged supervisor copy is
absent. -/
theorem makeRootFiles_chmod_unprefixed_path_witness :
    Op.chmod "/usr/bin/goes" 0o755 ∈ (makeRootFiles wAbsent "/newroot").1 :=
  (makeRootFiles_chmod_unprefixed_path wAbsent (by simp [wAbsent])
    rfl rfl rfl rfl).2.1

theorem cleanup_ops_not_chroot : ∀ op ∈ cleanupStep.1, isChroot op = false := by
  decide

/-- C4: whenever the pivot trace contains any old-root cleanup event
(an unlink or rmdir from `unlinkRootFiles`/`rmdirRootDirs`), the whole
pre-cleanup phase has completed without panic — in particular skeleton
population (`makeRootDirs`/`makeRootFiles`/`makeRootLinks`), the
virtual-filesystem relocation, and the chdir into the staging path all
succeeded — and the trace decomposes as that successful prefix (which
contains no cleanup event) followed by the cleanup and the switch. -/
theorem pivot_cleanup_after_population (w : World) (mp root script : String)
    (h : ∃ op ∈ (pivotRoot w mp root script).1, isCleanup op = true) :
    (preStep w mp root script).2 = none
    ∧ (makeRootDirs w mp).2 = none
    ∧ (makeRootFiles w mp).2 = none
    ∧ (makeRootLinks w mp).2 = none
    ∧ (moveVirtualFileSystems w mp).2 = none
    ∧ w.chdirOk mp = true
    ∧ (pivotRoot w mp root script).1
        = (preStep w mp root script).1
            ++ (cleanupStep.1 ++ (switchStep w mp).1)
    ∧ (∀ op ∈ (preStep w mp root script).1, isCleanup op = false) := by
  obtain ⟨op, hmem, hcl⟩ := h
  have hnone : (preStep w mp root script).2 = none := by
    rcases mem_andThen (a := preStep w mp root script)
        (b := andThen cleanupStep (switchStep w mp)) hmem with h1 | ⟨hp, _⟩
    · have hfalse := preSafe_not_cleanup (preStep_preSafe op h1)
      rw [hcl] at hfalse
      cases hfalse
    · exact hp
  have hnone' := hnone
  unfold preStep at hnone'
  obtain ⟨hmas, h3⟩ := andThen_none hnone'
  obtain ⟨hdirs, h4⟩ := andThen_none h3
  obtain ⟨hfiles, h5⟩ := andThen_none h4
  obtain ⟨hlinks, h6⟩ := andThen_none h5
  obtain ⟨hmoves, hchd⟩ := andThen_none h6
  have hchdir : w.chdirOk mp = true := by
    by_cases hc : w.chdirOk mp
    · exact hc
    · rw [if_neg hc] at hchd
      simp at hchd
  have heq : (pivotRoot w mp root script).1
      = (preStep w mp root script).1
          ++ (cleanupStep.1 ++ (switchStep w mp).1) := by
    unfold pivotRoot
    rw [andThen_of_none hnone,
      andThen_of_none (a := cleanupStep) (b := switchStep w mp) rfl]
  exact ⟨hnone, hdirs, hfiles, hlinks, hmoves, hchdir, heq,
    fun op h => preSafe_not_cleanup (preStep_preSafe op h)⟩

/-- Witness for C4: in the all-cooperative world the pivot performs the
cleanup, so its pre-cleanup phase completed without panic. -/
theorem pivot_cleanup_after_population_witness :
    (preStep wAll "/newroot" "/dev/sda1" "").2 = none :=
  (pivot_cleanup_after_population wAll "/newroot" "/dev/sda1" ""
    (by decide)).1

/-- C5: if the bind-move of the staging path onto `/` fails, no
root-context change is performed (no chroot event anywhere in the pivot
trace) and the pivot does not complete normally — it panics, unwinding to
the Recovery boundary. -/
theorem pivot_bindmove_fail_no_chroot (w : World) (root script : String)
    (hmv : w.moveOk "/newroot" "/" = false) :
    (∀ op ∈ (pivotRoot w "/newroot" root script).1, isChroot op = false)
    ∧ (pivotRoot w "/newroot" root script).2 ≠ none := by
  have hsw : switchStep w "/newroot" =
      ([Op.mountMove "/newroot" "/"],
        some ("mount " ++ "/newroot" ++ " /")) := by
    unfold switchStep
    rw [if_neg (by simp [hmv])]
    exact andThen_of_some rfl
  constructor
  · intro op hmem
    rcases mem_andThen (a := preStep w "/newroot" root script)
        (b := andThen cleanupStep (switchStep w "/newroot")) hmem with
      h1 | ⟨_, h2⟩
    · exact preSafe_not_chroot (preStep_preSafe op h1)
    · rcases mem_andThen h2 with h3 | ⟨_, h4⟩
      · exact cleanup_ops_not_chroot op h3
      · rw [hsw] at h4
        simp at h4
        subst h4
        rfl
  · intro hno
    obtain ⟨_, h1⟩ := andThen_none (a := preStep w "/newroot" root script)
      (b := andThen cleanupStep (switchStep w "/newroot")) hno
    obtain ⟨_, h2⟩ := andThen_none h1
    rw [hsw] at h2
    simp at h2

/-- Witness for C5: with only the bind-move failing, the pivot panics
rather than completing. -/
theorem pivot_bindmove_fail_no_chroot_witness :
    (pivotRoot wNoMove "/newroot" "/dev/sda1" "").2 ≠ none :=
  (pivot_bindmove_fail_no_chroot wNoMove "/dev/sda1" "" (by decide)).2

/-- C6: every fatal (panicking) failure of the `Main` body — board hook,
pivot sequence, or finalizer — ends at the Emergency Shell Supervisor
whenever the recovery/installer attempt does not hand the process off
(including when the installer itself errors or panics: any non-handoff
installer result is absorbed by the inner recovery boundary); and a board
hook failure enters the same boundary as a pivot failure, by panicking the
body. -/
theorem main_fatal_reaches_shell (w : World) (m e : String)
    (hp : (mainBody w).2 = FinalRes.panicked m)
    (hni : (installer w (goSplit (w.getenv "goesinstaller") ',')).2
        ≠ InstRes.handoff) :
    mainOutcome w = MainOutcome.shell
    ∧ (w.hookErr = some e →
        (mainBody w).2 = FinalRes.panicked ("hook " ++ e)) := by
  constructor
  · unfold mainOutcome
    rcases hi : (installer w (goSplit (w.getenv "goesinstaller") ',')).2 with
      _ | m' | m'
    · exact absurd hi hni
    · simp [hp, hi]
    · simp [hp, hi]
  · intro he
    unfold mainBody
    rw [he]

/-- Witness for C6: failing board hook, no recovery descriptor — the
process ends in the emergency shell. -/
theorem main_fatal_reaches_shell_witness :
    mainOutcome wHook = MainOutcome.shell :=
  (main_fatal_reaches_shell wHook "hook boom" "boom" (by decide)
    (by decide)).1

/-- C1, counterexample: with a two-URL recovery descriptor whose batch
fetch reports only one success (and no error from the fetch call itself),
the kernel-reload hand-off is STILL attempted — the kexec command appears
in the trace and succeeds — although the success count is strictly below
the requested count, contradicting the claim that the hand-off happens
only when every requested fetch succeeded. -/
theorem installer_incomplete_fetch_still_kexecs :
    instReqs wFetch1 ["k", "i"] = Except.ok ["kernel", "initramfs"]
    ∧ (wFetch1.fetchRes ["kernel", "initramfs"]).1 <
        (["kernel", "initramfs"] : List String).length
    ∧ Op.kexecCmd "kernel" "initramfs" "console=ttyS0,115200"
        ∈ (installer wFetch1 ["k", "i"]).1
    ∧ (installer wFetch1 ["k", "i"]).2 = InstRes.handoff :=
  ⟨rfl, by decide, by decide, by decide⟩

/-- C1, amended: the hand-off is attempted whenever request construction
succeeded and the batch fetch call returned without error, REGARDLESS of
the success count (the count only controls the success message); the
installer result is then exactly the kexec collaborator's result, so
control falls through to the shell only when the descriptor is
absent/bad, the fetch call errors, or the kexec call fails. -/
theorem installer_handoff_unconditional (w : World)
    (params names : List String)
    (hr : instReqs w params = Except.ok names)
    (hf : (w.fetchRes names).2 = none) :
    Op.kexecCmd "kernel" "initramfs" "console=ttyS0,115200"
      ∈ (installer w params).1
    ∧ ((installer w params).2 = InstRes.handoff ↔
        w.kexec = KexecRes.handoff) := by
  rcases hfr : w.fetchRes names with ⟨s, e⟩
  rw [hfr] at hf
  simp only at hf
  subst hf
  constructor
  · cases hk : w.kexec <;> by_cases hs : s = names.length <;>
      simp [installer, hr, hfr, hk, hs]
  · cases hk : w.kexec <;> by_cases hs : s = names.length <;>
      simp [installer, hr, hfr, hk, hs]

/-- Witness for C1's amended theorem: all fetches succeed, the kexec call
appears in the trace and hands off. -/
theorem installer_handoff_unconditional_witness :
    Op.kexecCmd "kernel" "initramfs" "console=ttyS0,115200"
      ∈ (installer wAll ["k", "i"]).1 :=
  (installer_handoff_unconditional wAll ["k", "i"] ["kernel", "initramfs"]
    rfl rfl).1

/-- C2, counterexample: with the full skeleton already present and the
overwrite flag set (`goes=overwrite`), the skeleton-population step
rewrites a SECOND file — `/newroot/usr/bin/gdbserver` — besides the
supervisor binary, contradicting "exactly one designated file is
rewritten". -/
theorem skeleton_overwrite_rewrites_gdbserver :
    Op.createF "/newroot/usr/bin/gdbserver"
      ∈ ((skeletonStep wOver "/newroot").1.filter isWrite)
    ∧ "/newroot/usr/bin/gdbserver" ≠ "/newroot/usr/bin/goes" := by
  decide

/-- C2, amended: on a target root already containing the full skeleton,
re-running the skeleton-population step performs zero filesystem writes;
when the overwrite flag is set, exactly the files of the copy table — the
supervisor binary AND the gdbserver binary — are rewritten (each create,
byte copy, and the mode change the code applies to the unprefixed path),
and nothing else. -/
theorem skeleton_idempotent_and_overwrite (w : World) (mp : String)
    (h1 : w.stat (mp ++ "/bin") = StatRes.found)
    (h2 : w.stat (mp ++ "/sbin") = StatRes.found)
    (h3 : w.stat (mp ++ "/usr") = StatRes.found)
    (h4 : w.stat (mp ++ "/usr/bin") = StatRes.found)
    (h5 : w.stat (mp ++ "/usr/bin/goes") = StatRes.found)
    (h6 : w.stat (mp ++ "/usr/bin/gdbserver") = StatRes.found)
    (h7 : w.stat (mp ++ "/sbin/init") = StatRes.found)
    (ho1 : w.openOk "/init" = true)
    (ho2 : w.openOk "/usr/bin/gdbserver" = true)
    (hc1 : w.createOk (mp ++ "/usr/bin/goes") = true)
    (hc2 : w.createOk (mp ++ "/usr/bin/gdbserver") = true)
    (hy1 : w.copyOk "/init" (mp ++ "/usr/bin/goes") = true)
    (hy2 : w.copyOk "/usr/bin/gdbserver" (mp ++ "/usr/bin/gdbserver")
        = true)
    (hm1 : w.chmodOk "/usr/bin/goes" = true)
    (hm2 : w.chmodOk "/usr/bin/gdbserver" = true) :
    (¬ w.getenv "goes" = "overwrite" →
      (skeletonStep w mp).1.filter isWrite = []
      ∧ (skeletonStep w mp).2 = none)
    ∧ (w.getenv "goes" = "overwrite" →
      (skeletonStep w mp).1.filter isWrite =
        [Op.createF (mp ++ "/usr/bin/goes"),
         Op.copyF "/init" (mp ++ "/usr/bin/goes"),
         Op.chmod "/usr/bin/goes" 0o755,
         Op.createF (mp ++ "/usr/bin/gdbserver"),
         Op.copyF "/usr/bin/gdbserver" (mp ++ "/usr/bin/gdbserver"),
         Op.chmod "/usr/bin/gdbserver" 0o755]
      ∧ (skeletonStep w mp).2 = none) := by
  constructor <;> intro hov <;>
    refine ⟨?_, ?_⟩ <;>
    simp [skeletonStep, makeRootDirs, makeRootFiles, makeRootLinks,
      mkdirEntry, copyEntry, linkEntry, andThen, isWrite,
      h1, h2, h3, h4, h5, h6, h7, ho1, ho2, hc1, hc2, hy1, hy2, hm1, hm2,
      hov]

/-- Witness for C2's amended theorem: full skeleton, no overwrite flag —
zero writes. -/
theorem skeleton_idempotent_and_overwrite_witness :
    (skeletonStep wAll "/newroot").1.filter isWrite = [] :=
  ((skeleton_idempotent_and_overwrite wAll "/newroot" rfl rfl rfl rfl rfl
    rfl rfl rfl rfl rfl rfl rfl rfl rfl rfl).1 (by decide)).1

/-- C3, counterexample: `filepath.SplitList` separates on the OS path list
separator, which is `:` on the Linux target, so the comma-joined value
`/dev/sda1,/etc/boot.conf` is parsed as a single ROOT (with no boot
script), not as the pair the claim states. -/
theorem goesroot_comma_not_split :
    parseGoesRoot "/dev/sda1,/etc/boot.conf" =
      ("/dev/sda1,/etc/boot.conf", "")
    ∧ parseGoesRoot "/dev/sda1,/etc/boot.conf" ≠
      ("/dev/sda1", "/etc/boot.conf") := by
  decide

theorem andThen_fst_prefix (a b : Step) : ∃ t, (andThen a b).1 = a.1 ++ t := by
  cases ho : a.2
  · exact ⟨b.1, by rw [andThen_of_none ho]⟩
  · exact ⟨[], by rw [andThen_of_some ho, List.append_nil]⟩

theorem bodyCore_fst_prefix (w : World) (root script : String)
    (hr : root.length > 0) :
    ∃ u, (bodyCore w root script).1
      = (pivotRoot w "/newroot" root script).1 ++ u := by
  unfold bodyCore
  rw [if_pos hr]
  obtain ⟨u1, hu1⟩ :=
    andThen_fst_prefix (pivotRoot w "/newroot" root script) (finalizeStep w)
  rcases hA : andThen (pivotRoot w "/newroot" root script)
      (finalizeStep w) with ⟨t, o⟩
  rw [hA] at hu1
  simp only at hu1
  cases o with
  | none =>
    rcases hR : runSbinInit w with ⟨t2, r⟩
    cases r
    · exact ⟨u1 ++ t2, by simp [hR, hu1, List.append_assoc]⟩
    · exact ⟨u1 ++ (t2 ++ [Op.startCmd]),
        by simp [hR, hu1, List.append_assoc]⟩
    · exact ⟨u1 ++ t2, by simp [hR, hu1, List.append_assoc]⟩
  | some m =>
    exact ⟨u1, by simp [hu1]⟩

/-- C3, amended: with `goesroot` set to `/dev/sda1:/etc/boot.conf` — the
OS path-list separator on the Linux target is the colon, not the comma —
the orchestrator parses the pair ROOT=`/dev/sda1`, SCRIPT=`/etc/boot.conf`;
the pivot trace is the staging-directory check, then the mount of
`/dev/sda1` at the staging path, then the boot-script execution, and only
after that everything else (the skeleton population); and `Main` indeed
runs that pivot. -/
theorem goesroot_colon_pivot (w : World)
    (hg : w.getenv "goesroot" = "/dev/sda1:/etc/boot.conf")
    (hst : (mkdirEntry w "/newroot" 0o755).2 = none)
    (hm : w.mountCmdOk "/dev/sda1" "/newroot" = true)
    (hsc : w.sourceOk "/etc/boot.conf" = true)
    (hh : w.hookErr = none) :
    parseGoesRoot (w.getenv "goesroot") = ("/dev/sda1", "/etc/boot.conf")
    ∧ (∃ t, (pivotRoot w "/newroot" "/dev/sda1" "/etc/boot.conf").1
        = (mkdirEntry w "/newroot" 0o755).1
            ++ ([Op.mountCmd "/dev/sda1" "/newroot",
                 Op.sourceCmd "/etc/boot.conf"] ++ t))
    ∧ (∀ op ∈ (mkdirEntry w "/newroot" 0o755).1,
        op = Op.stat "/newroot" ∨ op = Op.mkdir "/newroot" 0o755)
    ∧ (∃ u, (mainBody w).1
        = (pivotRoot w "/newroot" "/dev/sda1" "/etc/boot.conf").1 ++ u) := by
  have hlen : ("/etc/boot.conf").length > 0 := by decide
  have hmas : mountAndScript w "/newroot" "/dev/sda1" "/etc/boot.conf"
      = ((mkdirEntry w "/newroot" 0o755).1
          ++ [Op.mountCmd "/dev/sda1" "/newroot",
              Op.sourceCmd "/etc/boot.conf"], none) := by
    unfold mountAndScript
    rw [andThen_of_none hst]
    simp [hm, hsc, hlen, andThen]
  have hpg : parseGoesRoot "/dev/sda1:/etc/boot.conf" =
      ("/dev/sda1", "/etc/boot.conf") := by decide
  refine ⟨by rw [hg]; exact hpg, ?_, fun op h => mkdirEntry_shape h, ?_⟩
  · obtain ⟨r, hr⟩ :=
      andThen_fst_prefix
        (mountAndScript w "/newroot" "/dev/sda1" "/etc/boot.conf")
        (andThen (makeRootDirs w "/newroot")
          (andThen (makeRootFiles w "/newroot")
            (andThen (makeRootLinks w "/newroot")
              (andThen (moveVirtualFileSystems w "/newroot")
                (if w.chdirOk "/newroot" then ([Op.chdir "/newroot"], none)
                 else ([Op.chdir "/newroot"],
                   some ("chdir " ++ "/newroot")))))))
    obtain ⟨u, hu⟩ :=
      andThen_fst_prefix
        (preStep w "/newroot" "/dev/sda1" "/etc/boot.conf")
        (andThen cleanupStep (switchStep w "/newroot"))
    refine ⟨r ++ u, ?_⟩
    show (andThen (preStep w "/newroot" "/dev/sda1" "/etc/boot.conf")
        (andThen cleanupStep (switchStep w "/newroot"))).1 = _
    rw [hu]
    show ((andThen
        (mountAndScript w "/newroot" "/dev/sda1" "/etc/boot.conf") _).1
          ++ u) = _
    rw [hr, hmas]
    simp [List.append_assoc]
  · have hb : mainBody w = bodyCore w "/dev/sda1" "/etc/boot.conf" := by
      simp [mainBody, hh, hg, hpg]
    rw [hb]
    exact bodyCore_fst_prefix w "/dev/sda1" "/etc/boot.conf" (by decide)

/-- Witness for C3's amended theorem in the colon-configured world. -/
theorem goesroot_colon_pivot_witness :
    parseGoesRoot (wC3.getenv "goesroot") =
      ("/dev/sda1", "/etc/boot.conf") :=
  (goesroot_colon_pivot wC3 rfl rfl rfl rfl rfl).1

end Slashinit
